import Mathlib

/-!
Verification of the `kik` Go client library (`src/kik/kik.go`) against its
natural-language specification.  The library is a client binding for the Kik
bot HTTP API: it builds authenticated requests, serializes JSON payloads, and
validates inbound webhook authenticity via HMAC-SHA1.

Shallow embedding conventions:
* byte sequences are `List Nat` with every byte `< 256`;
* machine 32-bit words are `Nat` reduced `% 2 ^ 32` wherever Go would wrap;
* the Go stdlib primitives `crypto/sha1`, `crypto/hmac` and `encoding/hex`
  used by `computeHmac1` are embedded by their standard definitions
  (FIPS 180-1 SHA-1, RFC 2104 HMAC with block size 64, lowercase hex);
* Go functions that can fail return `Except`;
* the repository's `newRequest` / `do` helpers and the record types
  (`Message`, `Configuration`, ...) are not part of `src/`; they are modelled
  from the spec and marked as such in their doc comments.
-/

namespace Kik

/-! ## Bytes, 32-bit words, SHA-1 (crypto/sha1) -/

/-- Rotate a 32-bit word (a `Nat` below `2 ^ 32`) left by `s` bits. -/
def rotl32 (x s : Nat) : Nat :=
  ((x <<< s) ||| (x >>> (32 - s))) % 2 ^ 32

/-- Big-endian serialization of a 32-bit word into four bytes,
as `encoding/binary.BigEndian.PutUint32` does. -/
def wordToBytesBE (x : Nat) : List Nat :=
  [x / 2 ^ 24 % 256, x / 2 ^ 16 % 256, x / 2 ^ 8 % 256, x % 256]

/-- Big-endian deserialization of bytes into 32-bit words,
four bytes per word (`encoding/binary.BigEndian.Uint32`). -/
def bytesToWordsBE : List Nat → List Nat
  | a :: b :: c :: d :: rest =>
      (a * 2 ^ 24 + b * 2 ^ 16 + c * 2 ^ 8 + d) :: bytesToWordsBE rest
  | _ => []

/-- SHA-1 padding (FIPS 180-1): append `0x80`, zero bytes until the length is
56 mod 64, then the bit length of the message as 8 big-endian bytes. -/
def sha1Pad (msg : List Nat) : List Nat :=
  let len := msg.length
  let zeros := (119 - len % 64) % 64
  let bitLen := len * 8
  msg ++ [0x80] ++ List.replicate zeros 0 ++
    [bitLen / 2 ^ 56 % 256, bitLen / 2 ^ 48 % 256, bitLen / 2 ^ 40 % 256,
     bitLen / 2 ^ 32 % 256, bitLen / 2 ^ 24 % 256, bitLen / 2 ^ 16 % 256,
     bitLen / 2 ^ 8 % 256, bitLen % 256]

/-- Split a byte list into 64-byte chunks (fuel-based structural recursion so
that the kernel can evaluate it; the fuel `l.length` always suffices since
every step consumes at least one byte). -/
def chunks64Aux : Nat → List Nat → List (List Nat)
  | 0, _ => []
  | _, [] => []
  | fuel + 1, l => l.take 64 :: chunks64Aux fuel (l.drop 64)

/-- Split a byte list into 64-byte chunks. -/
def chunks64 (l : List Nat) : List (List Nat) :=
  chunks64Aux l.length l

/-- One extension step of the SHA-1 message schedule:
`w[i] = rotl1 (w[i-3] xor w[i-8] xor w[i-14] xor w[i-16])`. -/
def sha1ExtendStep (w : List Nat) : List Nat :=
  let n := w.length
  w ++ [rotl32 (w.getD (n - 3) 0 ^^^ w.getD (n - 8) 0 ^^^
                w.getD (n - 14) 0 ^^^ w.getD (n - 16) 0) 1]

/-- Iterate the message-schedule extension `fuel` times. -/
def sha1ExtendAux : Nat → List Nat → List Nat
  | 0, w => w
  | fuel + 1, w => sha1ExtendAux fuel (sha1ExtendStep w)

/-- Extend the 16 schedule words of a chunk to the full 80 words. -/
def sha1Extend (w : List Nat) : List Nat :=
  sha1ExtendAux (80 - w.length) w

/-- The SHA-1 working state: five 32-bit words. -/
structure Sha1State where
  h0 : Nat
  h1 : Nat
  h2 : Nat
  h3 : Nat
  h4 : Nat
deriving Repr, DecidableEq

/-- SHA-1 initial state (FIPS 180-1). -/
def sha1Init : Sha1State :=
  ⟨0x67452301, 0xEFCDAB89, 0x98BADCFE, 0x10325476, 0xC3D2E1F0⟩

/-- Round function and round constant of SHA-1 for round `i`
(complement is xor with the all-ones 32-bit mask). -/
def sha1FK (i b c d : Nat) : Nat × Nat :=
  if i < 20 then ((b &&& c) ||| ((b ^^^ 0xFFFFFFFF) &&& d), 0x5A827999)
  else if i < 40 then (b ^^^ c ^^^ d, 0x6ED9EBA1)
  else if i < 60 then ((b &&& c) ||| (b &&& d) ||| (c &&& d), 0x8F1BBCDC)
  else (b ^^^ c ^^^ d, 0xCA62C1D6)

/-- One SHA-1 round over the five-word accumulator. -/
def sha1Round (w : List Nat) (st : Nat × Nat × Nat × Nat × Nat) (i : Nat) :
    Nat × Nat × Nat × Nat × Nat :=
  let a := st.1
  let b := st.2.1
  let c := st.2.2.1
  let d := st.2.2.2.1
  let e := st.2.2.2.2
  let fk := sha1FK i b c d
  let temp := (rotl32 a 5 + fk.1 + e + fk.2 + w.getD i 0) % 2 ^ 32
  (temp, a, rotl32 b 30, c, d)

/-- Process one 64-byte chunk of the padded message. -/
def sha1Compress (st : Sha1State) (chunk : List Nat) : Sha1State :=
  let w := sha1Extend (bytesToWordsBE chunk)
  let r := List.foldl (sha1Round w) (st.h0, st.h1, st.h2, st.h3, st.h4)
    (List.range 80)
  ⟨(st.h0 + r.1) % 2 ^ 32, (st.h1 + r.2.1) % 2 ^ 32, (st.h2 + r.2.2.1) % 2 ^ 32,
   (st.h3 + r.2.2.2.1) % 2 ^ 32, (st.h4 + r.2.2.2.2) % 2 ^ 32⟩

/-- Serialize the final SHA-1 state into the 20-byte digest. -/
def sha1Serialize (st : Sha1State) : List Nat :=
  wordToBytesBE st.h0 ++ wordToBytesBE st.h1 ++ wordToBytesBE st.h2 ++
    wordToBytesBE st.h3 ++ wordToBytesBE st.h4

/-- SHA-1 of a byte sequence (`crypto/sha1.Sum`). -/
def sha1 (msg : List Nat) : List Nat :=
  sha1Serialize (List.foldl sha1Compress sha1Init (chunks64 (sha1Pad msg)))

/-! ## HMAC (crypto/hmac) and hex encoding (encoding/hex) -/

/-- HMAC-SHA1 (RFC 2104, block size 64): keys longer than one block are
hashed, the key is zero-padded to the block size, and the digest is
`H((K xor opad) ++ H((K xor ipad) ++ msg))`. -/
def hmacSha1 (key msg : List Nat) : List Nat :=
  let k1 := if 64 < key.length then sha1 key else key
  let k2 := k1 ++ List.replicate (64 - k1.length) 0
  let ipadKey := k2.map (fun b => b ^^^ 0x36)
  let opadKey := k2.map (fun b => b ^^^ 0x5C)
  sha1 (opadKey ++ sha1 (ipadKey ++ msg))

/-- The lowercase hex digit table, exactly the Go constant
`encoding/hex.hextable`. -/
def hextable : String := "0123456789abcdef"

/-- The hex digit table as the list of its sixteen characters. -/
def hexDigits : List Char := hextable.data

/-- Hex encoding of one byte: high nibble then low nibble
(`encoding/hex.Encode`). -/
def hexByte (b : Nat) : List Char :=
  [hexDigits.getD (b / 16) '0', hexDigits.getD (b % 16) '0']

/-- Lowercase hex encoding of a byte sequence
(`encoding/hex.EncodeToString`). -/
def hexEncode (bs : List Nat) : String :=
  String.mk (bs.flatMap hexByte)

/-- The UTF-8 bytes of a string, as Go's `[]byte(s)` conversion produces
(the same bytes as `String.toUTF8`, kept as a `List Nat`). -/
def strToBytes (s : String) : List Nat :=
  (s.data.flatMap String.utf8EncodeChar).map (fun b => b.toNat)

/-- `computeHmac1` from `src/kik/kik.go`: the lowercase hex HMAC-SHA1 digest
of `message` keyed with the UTF-8 bytes of `secret`. -/
def computeHmac1 (message : List Nat) (secret : String) : String :=
  hexEncode (hmacSha1 (strToBytes secret) message)

/-! ## Data model: URLs, transport, client, requests, errors

The Go client stores a `*url.URL` produced by `net/url.Parse` and a
`*http.Client`.  Both are external collaborators: the URL is kept as its
string form, parsing is an abstract parameter of the constructor, and the
transport handle is an abstract value with a distinguished default standing
for the fresh `&http.Client{}` the constructor substitutes for `nil`. -/

/-- A parsed URL, kept abstractly as the string it renders back to. -/
structure Url where
  raw : String
deriving Repr, DecidableEq

/-- An abstract `*http.Client` handle.  `HttpClient.defaultClient` stands for
the fresh `&http.Client{}` that `NewKikClient` substitutes when it is handed
`nil`. -/
inductive HttpClient where
  | defaultClient : HttpClient
  | custom : Nat → HttpClient
deriving Repr, DecidableEq

/-- The `Client` struct from `src/kik/kik.go`.  Its Go field `Client`
(the transport handle) is renamed `httpClient`, since a Lean field cannot
share its structure's name. -/
structure Client where
  BotUsername : String
  ApiKey : String
  httpClient : HttpClient
  BaseUrl : Url
deriving Repr, DecidableEq

/-- The error taxonomy of the spec (§7): every operation either succeeds or
returns exactly one of these. -/
inductive KikError where
  | configError : String → KikError
  | encodeError : String → KikError
  | transportError : String → KikError
  | statusError : Nat → String → KikError
  | decodeError : String → KikError
deriving Repr, DecidableEq

/-- An outbound HTTP request: method, absolute URL, optional JSON body and
the optional Basic Auth header (identifier, secret). -/
structure Request where
  method : String
  url : String
  body : Option String
  basicAuth : Option (String × String)
deriving Repr, DecidableEq

/-- `req.SetBasicAuth(user, key)` from `net/http`: set the Basic Auth
header pair on the request. -/
def Request.setBasicAuth (req : Request) (user key : String) : Request :=
  { req with basicAuth := some (user, key) }

/-- An inbound HTTP response: status code and raw body. -/
structure Response where
  status : Nat
  body : String
deriving Repr, DecidableEq

/-- What the transport produces for a submitted request: a transport-level
failure (DNS, connection refused, timeout, TLS) or a response. -/
inductive TransportResult where
  | failure : String → TransportResult
  | response : Response → TransportResult
deriving Repr, DecidableEq

/-- The injected transport capability: submit a request, get a result. -/
def Transport : Type := Request → TransportResult

/-- The JSON serialization attempt of a payload value, as `encoding/json`
would produce it: either the serialized text or the marshalling error. -/
def Payload : Type := Except String String

/-! ## Record types (modelled)

The repository's `Message`, `Configuration`, `ScanData`, `User` and `Code`
record types are not under `src/`; the spec excludes their shapes as
"trivial serializable records".  Each is modelled abstractly by its JSON
serialization attempt (for payloads) or by the one field a spec scenario
observes (for decode targets). -/

/-- Modelled from the spec: a `Message` record, abstracted to its JSON
serialization attempt (`Except.error` when `encoding/json` would fail). -/
structure Message where
  ser : Payload

/-- Modelled from the spec: a `Configuration` record, abstracted to its
JSON serialization attempt. -/
structure Configuration where
  ser : Payload

/-- Modelled from the spec: a `ScanData` record, abstracted to its JSON
serialization attempt. -/
structure ScanData where
  ser : Payload

/-- Modelled from the spec: a `User` record; the spec's scenario observes
only its `username` field. -/
structure User where
  username : String
deriving Repr, DecidableEq

/-- Modelled from the spec: a `Code` record, abstracted to one field. -/
structure Code where
  id : String
deriving Repr, DecidableEq

/-- Modelled from the spec: the `Messages` envelope `{"messages": [...]}`
that `SendMessage` and `BroadcastMessage` wrap around the message list
(spec §6: `POST /v1/message` with body `{ "messages": [...] }`; §8: an empty
list serializes to `{"messages":[]}`).  Serialization fails iff some
message fails to serialize, with the first failing message's error. -/
def encodeMessages (messages : List Message) : Payload :=
  match messages.mapM (fun m => m.ser) with
  | .error e => .error e
  | .ok l => .ok ("\x7b\"messages\":[" ++ String.intercalate "," l ++ "]\x7d")

/-! ## The client constructor and operations (`src/kik/kik.go`) -/

/-- `GetUserUrl` from `src/kik/kik.go`. -/
def GetUserUrl : String := "/v1/user/"

/-- `SendMessageUrl` from `src/kik/kik.go`. -/
def SendMessageUrl : String := "/v1/message"

/-- `BroadcastUrl` from `src/kik/kik.go`. -/
def BroadcastUrl : String := "/v1/broadcast"

/-- `ConfigtUrl` from `src/kik/kik.go`. -/
def ConfigtUrl : String := "/v1/config"

/-- `CodeUrl` from `src/kik/kik.go`. -/
def CodeUrl : String := "/v1/code"

/-- `strings.HasSuffix(s, suffix)` from the Go stdlib: whether `suffix` is
a suffix of `s`. -/
def hasSuffix (s suffix : String) : Bool :=
  suffix.data.isSuffixOf s.data

/-- `NewKikClient` from `src/kik/kik.go`: substitute a fresh default
transport for `nil`, reject a base URL without a trailing slash with a
descriptive error, parse the base URL (the external `url.Parse` is the
abstract parameter `parse`), and assemble the client.  Go returns
`(*Client, error)`; the embedding returns `Except String Client`, the error
string playing the role of the returned `error`. -/
def NewKikClient (parse : String → Except String Url)
    (baseUrl botUsername apiKey : String) (httpClient : Option HttpClient) :
    Except String Client :=
  let httpClient := match httpClient with
    | none => HttpClient.defaultClient
    | some h => h
  if ¬ hasSuffix baseUrl "/" then
    .error ("BaseURL must have a trailing slash, but " ++ baseUrl ++ " does not")
  else
    match parse baseUrl with
    | .error e => .error e
    | .ok u =>
        .ok { BotUsername := botUsername, ApiKey := apiKey,
              httpClient := httpClient, BaseUrl := u }

/-- Modelled from the spec: the repository's `newRequest` helper is not under
`src/`.  Per §4.1, `build(method, relativePath, payload)` appends the
relative path verbatim to the base URL (concatenation only, no
normalization), serializes the payload to JSON when present (a serialization
failure yields an `EncodeError` carrying the underlying cause and no
request), and attaches no body when the payload is absent. -/
def Client.newRequest (k : Client) (method relUrl : String)
    (payload : Option Payload) : Except KikError Request :=
  match payload with
  | none =>
      .ok { method := method, url := k.BaseUrl.raw ++ relUrl,
            body := none, basicAuth := none }
  | some (.error e) => .error (.encodeError e)
  | some (.ok b) =>
      .ok { method := method, url := k.BaseUrl.raw ++ relUrl,
            body := some b, basicAuth := none }

/-- Modelled from the spec: the repository's `do` executor is not under
`src/` (`do` is a Lean keyword, hence the name `doRequest`).  Per §4.2: the
request is submitted through the transport; a transport failure surfaces as
`TransportError`; a status outside 2xx surfaces as `StatusError` with the
exact code and raw body, with no decode attempt; on success the body is
decoded into the target when a decoder is present (failure is
`DecodeError`), or discarded when it is absent.  The caller-owned target
slot is threaded explicitly: the second component is its value after the
call. -/
def doRequest {α : Type} (tr : Transport) (req : Request)
    (dec : Option (String → Option α)) (slot : α) :
    Except KikError Unit × α × List Request :=
  let p : Except KikError Unit × α :=
    match tr req with
    | .failure e => (.error (.transportError e), slot)
    | .response r =>
        if 200 ≤ r.status ∧ r.status < 300 then
          match dec with
          | none => (.ok (), slot)
          | some d =>
              match d r.body with
              | none => (.error (.decodeError r.body), slot)
              | some v => (.ok (), v)
        else (.error (.statusError r.status r.body), slot)
  (p.1, p.2, [req])

/-- `SetConfiguration` from `src/kik/kik.go`: POST the configuration to
`/v1/config` with Basic Auth, decoding the response back into the same
configuration value (`k.do(req, &c)`).  The result carries the final value
of that target, the list of requests submitted through the transport, and
the client after the call. -/
def SetConfiguration (k : Client) (tr : Transport)
    (dec : String → Option Configuration) (c : Configuration) :
    (Except KikError Configuration × List Request) × Client :=
  let p : Except KikError Configuration × List Request :=
    match k.newRequest "POST" ConfigtUrl (some c.ser) with
    | .error e => (.error e, [])
    | .ok req =>
        let req := req.setBasicAuth k.BotUsername k.ApiKey
        let d := doRequest tr req (some dec) c
        (match d.1 with
         | .ok _ => .ok d.2.1
         | .error e => .error e, d.2.2)
  (p, k)

/-- `GetConfiguration` from `src/kik/kik.go`: GET `/v1/config` with Basic
Auth, decoding into a zero-valued configuration (`var config Configuration`,
the parameter `zero`). -/
def GetConfiguration (k : Client) (tr : Transport)
    (dec : String → Option Configuration) (zero : Configuration) :
    (Except KikError Configuration × List Request) × Client :=
  let p : Except KikError Configuration × List Request :=
    match k.newRequest "GET" ConfigtUrl none with
    | .error e => (.error e, [])
    | .ok req =>
        let req := req.setBasicAuth k.BotUsername k.ApiKey
        let d := doRequest tr req (some dec) zero
        (match d.1 with
         | .ok _ => .ok d.2.1
         | .error e => .error e, d.2.2)
  (p, k)

/-- `SendMessage` from `src/kik/kik.go`: wrap the messages in the
`Messages` envelope, POST to `/v1/message` with Basic Auth, no decode
target (`k.do(req, nil)`). -/
def SendMessage (k : Client) (tr : Transport) (messages : List Message) :
    (Except KikError Unit × List Request) × Client :=
  let p : Except KikError Unit × List Request :=
    match k.newRequest "POST" SendMessageUrl (some (encodeMessages messages)) with
    | .error e => (.error e, [])
    | .ok req =>
        let req := req.setBasicAuth k.BotUsername k.ApiKey
        let d := doRequest tr req (none : Option (String → Option Unit)) ()
        (d.1, d.2.2)
  (p, k)

/-- `BroadcastMessage` from `src/kik/kik.go`: like `SendMessage` but POSTs
the same envelope to `/v1/broadcast`. -/
def BroadcastMessage (k : Client) (tr : Transport) (messages : List Message) :
    (Except KikError Unit × List Request) × Client :=
  let p : Except KikError Unit × List Request :=
    match k.newRequest "POST" BroadcastUrl (some (encodeMessages messages)) with
    | .error e => (.error e, [])
    | .ok req =>
        let req := req.setBasicAuth k.BotUsername k.ApiKey
        let d := doRequest tr req (none : Option (String → Option Unit)) ()
        (d.1, d.2.2)
  (p, k)

/-- `GetUser` from `src/kik/kik.go`: GET `/v1/user/{username}` (the relative
URL is `GetUserUrl + username`) with Basic Auth, decoding into a zero-valued
user (`var user User`, the parameter `zero`). -/
def GetUser (k : Client) (tr : Transport) (dec : String → Option User)
    (zero : User) (username : String) :
    (Except KikError User × List Request) × Client :=
  let p : Except KikError User × List Request :=
    match k.newRequest "GET" (GetUserUrl ++ username) none with
    | .error e => (.error e, [])
    | .ok req =>
        let req := req.setBasicAuth k.BotUsername k.ApiKey
        let d := doRequest tr req (some dec) zero
        (match d.1 with
         | .ok _ => .ok d.2.1
         | .error e => .error e, d.2.2)
  (p, k)

/-- `CreateCode` from `src/kik/kik.go`: POST the scan data to `/v1/code`
with Basic Auth, decoding into a zero-valued code (`var code Code`). -/
def CreateCode (k : Client) (tr : Transport) (dec : String → Option Code)
    (zero : Code) (s : ScanData) :
    (Except KikError Code × List Request) × Client :=
  let p : Except KikError Code × List Request :=
    match k.newRequest "POST" CodeUrl (some s.ser) with
    | .error e => (.error e, [])
    | .ok req =>
        let req := req.setBasicAuth k.BotUsername k.ApiKey
        let d := doRequest tr req (some dec) zero
        (match d.1 with
         | .ok _ => .ok d.2.1
         | .error e => .error e, d.2.2)
  (p, k)

/-- `VerifySignature` from `src/kik/kik.go`:
`signature == computeHmac1(body, k.ApiKey)`.  The second component is the
client after the call. -/
def VerifySignature (k : Client) (signature : String) (body : List Nat) :
    Bool × Client :=
  (signature == computeHmac1 body k.ApiKey, k)

/-! ## Shape of the computed digest -/

theorem hexByte_length (b : Nat) : (hexByte b).length = 2 := rfl

theorem flatMap_hexByte_length (bs : List Nat) :
    (bs.flatMap hexByte).length = 2 * bs.length := by
  induction bs with
  | nil => rfl
  | cons b t ih => simp only [List.flatMap_cons, List.length_append,
      hexByte_length, ih, List.length_cons]; omega

theorem hexEncode_length (bs : List Nat) :
    (hexEncode bs).length = 2 * bs.length :=
  flatMap_hexByte_length bs

theorem wordToBytesBE_lt {b x : Nat} (hb : b ∈ wordToBytesBE x) : b < 256 := by
  simp only [wordToBytesBE, List.mem_cons, List.not_mem_nil, or_false] at hb
  rcases hb with h | h | h | h <;> subst h <;> exact Nat.mod_lt _ (by norm_num)

theorem sha1Serialize_length (st : Sha1State) :
    (sha1Serialize st).length = 20 := by
  simp [sha1Serialize, wordToBytesBE]

theorem sha1Serialize_lt {b : Nat} {st : Sha1State}
    (hb : b ∈ sha1Serialize st) : b < 256 := by
  simp only [sha1Serialize, List.mem_append, or_assoc] at hb
  rcases hb with h | h | h | h | h <;> exact wordToBytesBE_lt h

theorem sha1_length (m : List Nat) : (sha1 m).length = 20 :=
  sha1Serialize_length _

theorem sha1_lt {b : Nat} {m : List Nat} (hb : b ∈ sha1 m) : b < 256 :=
  sha1Serialize_lt hb

theorem hexDigits_getD_mem : ∀ n < 16, hexDigits.getD n '0' ∈ hexDigits := by
  decide

theorem hexEncode_mem_hexDigits (bs : List Nat) (hbs : ∀ b ∈ bs, b < 256) :
    ∀ c ∈ (hexEncode bs).data, c ∈ hexDigits := by
  intro c hc
  have hc2 : c ∈ bs.flatMap hexByte := hc
  rw [List.mem_flatMap] at hc2
  obtain ⟨b, hb, hcb⟩ := hc2
  have h256 := hbs b hb
  simp only [hexByte, List.mem_cons, List.not_mem_nil, or_false] at hcb
  rcases hcb with h | h <;> subst h
  · exact hexDigits_getD_mem _ ((Nat.div_lt_iff_lt_mul (by norm_num)).mpr h256)
  · exact hexDigits_getD_mem _ (Nat.mod_lt _ (by norm_num))

theorem computeHmac1_length (m : List Nat) (s : String) :
    (computeHmac1 m s).length = 40 := by
  simp [computeHmac1, hexEncode_length, hmacSha1, sha1_length]

theorem computeHmac1_mem_hexDigits (m : List Nat) (s : String) :
    ∀ c ∈ (computeHmac1 m s).data, c ∈ hexDigits := by
  apply hexEncode_mem_hexDigits
  intro b hb
  simp only [hmacSha1] at hb
  exact sha1_lt hb

set_option maxRecDepth 100000 in
/-- The spec's §8 scenario grounding the embedding: the expected signature
for webhook body `"hello"` under key `"secret"` is the fixed hex digest of
HMAC-SHA1. -/
theorem computeHmac1_hello_secret :
    computeHmac1 (strToBytes "hello") "secret" =
      "5112055c05f944f85755efc5cd8970e194e9f45b" := by
  decide

/-! ## Claims -/

/-- C1: For every claimed signature string `s`, body byte sequence `b`, and
client with API key `K`, `VerifySignature s b` returns true if and only if
`s` is exactly equal (case-sensitive, full-length) to the lowercase
hexadecimal HMAC-SHA1 digest of `b` keyed with `K`; in particular
`verify(hmac_sha1_hex(B, K), B, K)` is true for every `B` and `K`, and any
signature differing from the digest (such as one with a single character
changed) makes it false. -/
theorem c1_verifySignature_iff_digest (k : Client) (s : String) (b : List Nat) :
    ((VerifySignature k s b).1 = true ↔ s = computeHmac1 b k.ApiKey) ∧
    (VerifySignature k (computeHmac1 b k.ApiKey) b).1 = true ∧
    (∀ s2 : String, s2 ≠ computeHmac1 b k.ApiKey →
      (VerifySignature k s2 b).1 = false) := by
  refine ⟨beq_iff_eq, ?_, ?_⟩
  · exact beq_self_eq_true _
  · intro s2 hne
    exact beq_eq_false_iff_ne.mpr hne

theorem c1_verifySignature_iff_digest_witness :
    ("deadbeef" ≠ computeHmac1 (strToBytes "hello") "secret") ∧
    (VerifySignature
      { BotUsername := "bot1", ApiKey := "secret",
        httpClient := HttpClient.defaultClient,
        BaseUrl := { raw := "https://api.kik.com/" } }
      "deadbeef" (strToBytes "hello")).1 = false := by
  have hne : "deadbeef" ≠ computeHmac1 (strToBytes "hello") "secret" := by
    intro he
    have hlen := congrArg String.length he
    rw [computeHmac1_length] at hlen
    exact absurd hlen (by decide)
  exact ⟨hne,
    (c1_verifySignature_iff_digest
      { BotUsername := "bot1", ApiKey := "secret",
        httpClient := HttpClient.defaultClient,
        BaseUrl := { raw := "https://api.kik.com/" } }
      "deadbeef" (strToBytes "hello")).2.2 "deadbeef" hne⟩

/-- C10: For every claimed signature string that is not exactly 40
characters of lowercase hexadecimal, `VerifySignature` returns false for
every body and API key, because the computed digest is always a
40-character lowercase hexadecimal string. -/
theorem c10_verifySignature_shape (k : Client) (s : String) (b : List Nat)
    (h : ¬ (s.length = 40 ∧ ∀ c ∈ s.data, c ∈ hexDigits)) :
    (computeHmac1 b k.ApiKey).length = 40 ∧
    (∀ c ∈ (computeHmac1 b k.ApiKey).data, c ∈ hexDigits) ∧
    (VerifySignature k s b).1 = false := by
  refine ⟨computeHmac1_length b k.ApiKey, computeHmac1_mem_hexDigits b k.ApiKey, ?_⟩
  have hne : s ≠ computeHmac1 b k.ApiKey := by
    intro he
    refine h ⟨?_, ?_⟩
    · rw [he]; exact computeHmac1_length b k.ApiKey
    · rw [he]; exact computeHmac1_mem_hexDigits b k.ApiKey
  exact beq_eq_false_iff_ne.mpr hne

theorem c10_verifySignature_shape_witness :
    (¬ (("ZZ" : String).length = 40 ∧ ∀ c ∈ ("ZZ" : String).data, c ∈ hexDigits)) ∧
    (VerifySignature
      { BotUsername := "bot1", ApiKey := "secret",
        httpClient := HttpClient.defaultClient,
        BaseUrl := { raw := "https://api.kik.com/" } }
      "ZZ" [104, 105]).1 = false :=
  ⟨by decide,
    (c10_verifySignature_shape
      { BotUsername := "bot1", ApiKey := "secret",
        httpClient := HttpClient.defaultClient,
        BaseUrl := { raw := "https://api.kik.com/" } }
      "ZZ" [104, 105] (by decide)).2.2⟩

/-- Successful construction pins down the whole client. -/
theorem NewKikClient_ok {parse : String → Except String Url}
    {baseUrl bot key : String} {hcOpt : Option HttpClient} {c : Client}
    (h : NewKikClient parse baseUrl bot key hcOpt = .ok c) :
    ∃ u, parse baseUrl = .ok u ∧
      c = { BotUsername := bot, ApiKey := key,
            httpClient := hcOpt.getD HttpClient.defaultClient, BaseUrl := u } := by
  simp only [NewKikClient] at h
  split at h
  · exact absurd h (by simp)
  · cases hp : parse baseUrl with
    | error e => rw [hp] at h; exact absurd h (by simp)
    | ok u =>
        rw [hp] at h
        refine ⟨u, rfl, ?_⟩
        cases hcOpt <;> simpa using h.symm

/-- C2: For every base URL string: if it is a valid URL (url.Parse
succeeds) ending in a path separator, client construction succeeds and
returns a client; if it does not end in a path separator, construction
fails with a descriptive error and no partial client is returned. -/
theorem c2_newKikClient_trailing_slash (parse : String → Except String Url)
    (baseUrl bot key : String) (hcOpt : Option HttpClient) :
    (hasSuffix baseUrl "/" = true → ∀ u, parse baseUrl = .ok u →
      ∃ c, NewKikClient parse baseUrl bot key hcOpt = .ok c) ∧
    (hasSuffix baseUrl "/" = false →
      NewKikClient parse baseUrl bot key hcOpt =
        .error ("BaseURL must have a trailing slash, but " ++ baseUrl ++
          " does not")) := by
  constructor
  · intro hs u hu
    refine ⟨{ BotUsername := bot, ApiKey := key,
              httpClient := hcOpt.getD HttpClient.defaultClient,
              BaseUrl := u }, ?_⟩
    cases hcOpt <;> simp [NewKikClient, hs, hu]
  · intro hs
    simp [NewKikClient, hs]

theorem c2_newKikClient_trailing_slash_witness :
    (hasSuffix "https://api.kik.com/" "/" = true ∧
      (∃ c, NewKikClient (fun s => .ok { raw := s }) "https://api.kik.com/"
        "bot1" "secret" none = .ok c)) ∧
    (hasSuffix "https://api.kik.com" "/" = false ∧
      NewKikClient (fun s => .ok { raw := s }) "https://api.kik.com"
        "bot1" "secret" none =
        .error ("BaseURL must have a trailing slash, but https://api.kik.com" ++
          " does not")) :=
  ⟨⟨by decide,
    (c2_newKikClient_trailing_slash (fun s => .ok { raw := s })
      "https://api.kik.com/" "bot1" "secret" none).1 (by decide)
      { raw := "https://api.kik.com/" } rfl⟩,
   ⟨by decide,
    (c2_newKikClient_trailing_slash (fun s => .ok { raw := s })
      "https://api.kik.com" "bot1" "secret" none).2 (by decide)⟩⟩

/-- C9: If the constructor is called with a nil HTTP transport handle, it
substitutes a fresh default transport; every successfully constructed
client's transport handle is the supplied one, or the default when none was
supplied. -/
theorem c9_newKikClient_default_transport (parse : String → Except String Url)
    (baseUrl bot key : String) (hcOpt : Option HttpClient) (c : Client)
    (h : NewKikClient parse baseUrl bot key hcOpt = .ok c) :
    (hcOpt = none → c.httpClient = HttpClient.defaultClient) ∧
    (∀ h2, hcOpt = some h2 → c.httpClient = h2) := by
  obtain ⟨u, _, hc⟩ := NewKikClient_ok h
  subst hc
  constructor
  · intro hn; subst hn; rfl
  · intro h2 hs; subst hs; rfl

theorem c9_newKikClient_default_transport_witness :
    (NewKikClient (fun s => .ok { raw := s }) "https://api.kik.com/"
        "bot1" "secret" none =
      .ok { BotUsername := "bot1", ApiKey := "secret",
            httpClient := HttpClient.defaultClient,
            BaseUrl := { raw := "https://api.kik.com/" } }) ∧
    ({ BotUsername := "bot1", ApiKey := "secret",
       httpClient := HttpClient.defaultClient,
       BaseUrl := { raw := "https://api.kik.com/" } } : Client).httpClient =
      HttpClient.defaultClient :=
  ⟨rfl,
    (c9_newKikClient_default_transport (fun s => .ok { raw := s })
      "https://api.kik.com/" "bot1" "secret" none
      { BotUsername := "bot1", ApiKey := "secret",
        httpClient := HttpClient.defaultClient,
        BaseUrl := { raw := "https://api.kik.com/" } }
      rfl).1 rfl⟩

/-- The executor always submits exactly the one request it was handed. -/
theorem doRequest_log {α : Type} (tr : Transport) (req : Request)
    (dec : Option (String → Option α)) (slot : α) :
    (doRequest tr req dec slot).2.2 = [req] := rfl

/-- C4: For every transport response with a status code outside the 2xx
success range, the executor returns a `StatusError` carrying the exact
status code and the exact raw body, no decode attempt is made (the result
does not depend on the decoder), and the caller-supplied decode target is
left unmodified. -/
theorem c4_doRequest_status_error {α : Type} (tr : Transport) (req : Request)
    (dec : Option (String → Option α)) (slot : α) (resp : Response)
    (hresp : tr req = .response resp)
    (hstatus : ¬ (200 ≤ resp.status ∧ resp.status < 300)) :
    doRequest tr req dec slot =
      (.error (.statusError resp.status resp.body), slot, [req]) := by
  simp [doRequest, hresp, hstatus]

theorem c4_doRequest_status_error_witness :
    ((fun _ => .response { status := 404, body := "not found" } : Transport)
        { method := "GET", url := "https://api.kik.com/v1/user/alice",
          body := none, basicAuth := some ("bot1", "secret") } =
      .response { status := 404, body := "not found" }) ∧
    (¬ (200 ≤ 404 ∧ 404 < 300)) ∧
    doRequest (fun _ => .response { status := 404, body := "not found" })
        { method := "GET", url := "https://api.kik.com/v1/user/alice",
          body := none, basicAuth := some ("bot1", "secret") }
        (some fun _ => some (7 : Nat)) 3 =
      (.error (.statusError 404 "not found"), 3,
        [{ method := "GET", url := "https://api.kik.com/v1/user/alice",
           body := none, basicAuth := some ("bot1", "secret") }]) :=
  ⟨rfl, by decide,
    c4_doRequest_status_error
      (fun _ => .response { status := 404, body := "not found" })
      { method := "GET", url := "https://api.kik.com/v1/user/alice",
        body := none, basicAuth := some ("bot1", "secret") }
      (some fun _ => some (7 : Nat)) 3
      { status := 404, body := "not found" } rfl (by decide)⟩

/-- C3: Every outbound request that any public operation submits carries
the HTTP Basic Auth header built from the client's `(botID, apiKey)` pair,
unconditionally. -/
theorem c3_basic_auth_always (k : Client) (tr : Transport)
    (decC : String → Option Configuration) (decU : String → Option User)
    (decCode : String → Option Code) (c zeroC : Configuration)
    (msgs : List Message) (zeroU : User) (username : String)
    (zeroCode : Code) (sd : ScanData) :
    (∀ req ∈ (SetConfiguration k tr decC c).1.2,
      req.basicAuth = some (k.BotUsername, k.ApiKey)) ∧
    (∀ req ∈ (GetConfiguration k tr decC zeroC).1.2,
      req.basicAuth = some (k.BotUsername, k.ApiKey)) ∧
    (∀ req ∈ (SendMessage k tr msgs).1.2,
      req.basicAuth = some (k.BotUsername, k.ApiKey)) ∧
    (∀ req ∈ (BroadcastMessage k tr msgs).1.2,
      req.basicAuth = some (k.BotUsername, k.ApiKey)) ∧
    (∀ req ∈ (GetUser k tr decU zeroU username).1.2,
      req.basicAuth = some (k.BotUsername, k.ApiKey)) ∧
    (∀ req ∈ (CreateCode k tr decCode zeroCode sd).1.2,
      req.basicAuth = some (k.BotUsername, k.ApiKey)) := by
  refine ⟨?_, ?_, ?_, ?_, ?_, ?_⟩
  · intro req hreq
    cases hser : c.ser with
    | error e => simp [SetConfiguration, Client.newRequest, hser] at hreq
    | ok b =>
        simp [SetConfiguration, Client.newRequest, hser, doRequest_log,
          Request.setBasicAuth] at hreq
        simp [hreq]
  · intro req hreq
    simp [GetConfiguration, Client.newRequest, doRequest_log,
      Request.setBasicAuth] at hreq
    simp [hreq]
  · intro req hreq
    cases hser : encodeMessages msgs with
    | error e => simp [SendMessage, Client.newRequest, hser] at hreq
    | ok b =>
        simp [SendMessage, Client.newRequest, hser, doRequest_log,
          Request.setBasicAuth] at hreq
        simp [hreq]
  · intro req hreq
    cases hser : encodeMessages msgs with
    | error e => simp [BroadcastMessage, Client.newRequest, hser] at hreq
    | ok b =>
        simp [BroadcastMessage, Client.newRequest, hser, doRequest_log,
          Request.setBasicAuth] at hreq
        simp [hreq]
  · intro req hreq
    simp [GetUser, Client.newRequest, doRequest_log,
      Request.setBasicAuth] at hreq
    simp [hreq]
  · intro req hreq
    cases hser : sd.ser with
    | error e => simp [CreateCode, Client.newRequest, hser] at hreq
    | ok b =>
        simp [CreateCode, Client.newRequest, hser, doRequest_log,
          Request.setBasicAuth] at hreq
        simp [hreq]

theorem c3_basic_auth_always_witness :
    ({ method := "GET", url := "https://api.kik.com//v1/user/alice",
       body := none, basicAuth := some ("bot1", "secret") } : Request) ∈
      (GetUser
        { BotUsername := "bot1", ApiKey := "secret",
          httpClient := HttpClient.defaultClient,
          BaseUrl := { raw := "https://api.kik.com/" } }
        (fun _ => .response { status := 200, body := "" })
        (fun _ => none) { username := "" } "alice").1.2 ∧
    ({ method := "GET", url := "https://api.kik.com//v1/user/alice",
       body := none, basicAuth := some ("bot1", "secret") } : Request).basicAuth =
      some ("bot1", "secret") :=
  ⟨by decide,
    (c3_basic_auth_always
      { BotUsername := "bot1", ApiKey := "secret",
        httpClient := HttpClient.defaultClient,
        BaseUrl := { raw := "https://api.kik.com/" } }
      (fun _ => .response { status := 200, body := "" })
      (fun _ => none) (fun _ => none) (fun _ => none)
      { ser := .ok "" } { ser := .ok "" } [] { username := "" } "alice"
      { id := "" } { ser := .ok "" }).2.2.2.2.1
      { method := "GET", url := "https://api.kik.com//v1/user/alice",
        body := none, basicAuth := some ("bot1", "secret") } (by decide)⟩

/-- C5: For every public operation with a payload, if building the request
fails because the payload cannot be serialized to JSON, the operation
returns the build error (`EncodeError` with the underlying cause) and no
request is ever submitted through the transport (the submitted-request log
is empty). -/
theorem c5_encode_error_never_sent (k : Client) (tr : Transport)
    (decC : String → Option Configuration) (decCode : String → Option Code)
    (c : Configuration) (msgs : List Message) (zeroCode : Code)
    (sd : ScanData) (e : String) :
    (c.ser = .error e →
      SetConfiguration k tr decC c = ((.error (.encodeError e), []), k)) ∧
    (encodeMessages msgs = .error e →
      SendMessage k tr msgs = ((.error (.encodeError e), []), k)) ∧
    (encodeMessages msgs = .error e →
      BroadcastMessage k tr msgs = ((.error (.encodeError e), []), k)) ∧
    (sd.ser = .error e →
      CreateCode k tr decCode zeroCode sd = ((.error (.encodeError e), []), k)) := by
  refine ⟨fun h => ?_, fun h => ?_, fun h => ?_, fun h => ?_⟩
  · simp [SetConfiguration, Client.newRequest, h]
  · simp [SendMessage, Client.newRequest, h]
  · simp [BroadcastMessage, Client.newRequest, h]
  · simp [CreateCode, Client.newRequest, h]

theorem c5_encode_error_never_sent_witness :
    (({ ser := .error "json: unsupported type" } : Configuration).ser =
      .error "json: unsupported type") ∧
    SetConfiguration
      { BotUsername := "bot1", ApiKey := "secret",
        httpClient := HttpClient.defaultClient,
        BaseUrl := { raw := "https://api.kik.com/" } }
      (fun _ => .response { status := 200, body := "" })
      (fun _ => none) { ser := .error "json: unsupported type" } =
      ((.error (.encodeError "json: unsupported type"), []),
        { BotUsername := "bot1", ApiKey := "secret",
          httpClient := HttpClient.defaultClient,
          BaseUrl := { raw := "https://api.kik.com/" } }) :=
  ⟨rfl,
    (c5_encode_error_never_sent
      { BotUsername := "bot1", ApiKey := "secret",
        httpClient := HttpClient.defaultClient,
        BaseUrl := { raw := "https://api.kik.com/" } }
      (fun _ => .response { status := 200, body := "" })
      (fun _ => none) (fun _ => none)
      { ser := .error "json: unsupported type" } [] { id := "" }
      { ser := .ok "" } "json: unsupported type").1 rfl⟩

/-- C6 counterexample: with base URL `"https://api.kik.com/"`, the request
`GetUser("alice")` submits does not have the URL
`"https://api.kik.com/v1/user/alice"` claimed by the spec scenario, because
appending the relative path `"/v1/user/alice"` to the base verbatim (the
builder contract the spec itself states) produces a double slash. -/
theorem c6_getUser_url_counterexample :
    ((GetUser
        { BotUsername := "bot1", ApiKey := "secret",
          httpClient := HttpClient.defaultClient,
          BaseUrl := { raw := "https://api.kik.com/" } }
        (fun _ => .response { status := 200, body := "" })
        (fun _ => none) { username := "" } "alice").1.2.map (fun r => r.url)) ≠
      ["https://api.kik.com/v1/user/alice"] := by
  decide

/-- C6 (amended): For a client constructed with base URL
`"https://api.kik.com/"`, `GetUser("alice")` issues a GET request whose
target URL is exactly `"https://api.kik.com//v1/user/alice"` — the base and
the relative path `"/v1/user/alice"` combined by concatenation only, with
no normalization. -/
theorem c6_getUser_url (bot key : String) (hc : HttpClient) (tr : Transport)
    (dec : String → Option User) (zero : User) :
    ((GetUser
        { BotUsername := bot, ApiKey := key, httpClient := hc,
          BaseUrl := { raw := "https://api.kik.com/" } }
        tr dec zero "alice").1.2.map (fun r => (r.method, r.url))) =
      [("GET", "https://api.kik.com//v1/user/alice")] := by
  simp [GetUser, Client.newRequest, doRequest_log, Request.setBasicAuth,
    GetUserUrl]

/-- C7: `SendMessage` called with an empty message list still issues a POST
to `/v1/message` whose JSON body is exactly `\x7b"messages":[]\x7d` — the
body is neither omitted nor encoded with a null messages field, and the
request carries the client's Basic Auth pair. -/
theorem c7_sendMessage_empty_envelope (k : Client) (tr : Transport) :
    (SendMessage k tr []).1.2 =
      [{ method := "POST", url := k.BaseUrl.raw ++ SendMessageUrl,
         body := some "\x7b\"messages\":[]\x7d",
         basicAuth := some (k.BotUsername, k.ApiKey) }] := by
  simp only [SendMessage, Client.newRequest, encodeMessages]
  rfl

/-- C8: No public operation (configuration get/set, user lookup, message
send/broadcast, code creation, signature verification) mutates any
client-wide state: after any call the client — its bot identifier, API
key, base URL and transport handle — is unchanged. -/
theorem c8_no_client_mutation (k : Client) (tr : Transport)
    (decC : String → Option Configuration) (decU : String → Option User)
    (decCode : String → Option Code) (c zeroC : Configuration)
    (msgs : List Message) (zeroU : User) (username : String)
    (zeroCode : Code) (sd : ScanData) (sig : String) (body : List Nat) :
    (SetConfiguration k tr decC c).2 = k ∧
    (GetConfiguration k tr decC zeroC).2 = k ∧
    (SendMessage k tr msgs).2 = k ∧
    (BroadcastMessage k tr msgs).2 = k ∧
    (GetUser k tr decU zeroU username).2 = k ∧
    (CreateCode k tr decCode zeroCode sd).2 = k ∧
    (VerifySignature k sig body).2 = k :=
  ⟨rfl, rfl, rfl, rfl, rfl, rfl, rfl⟩

end Kik
